import Mathlib

/-!
Verification development for the PLSE v2 generation-and-validation core
(src/plse/generator.py, src/plse/validation.py, src/plse/patterns.py).

Text is modelled as `List Char` so that every operation is structurally
recursive and kernel-computable.  The Jinja2 template engine is modelled
on the fragment the patterns use: variable interpolation `\x7b\x7b name \x7d\x7d`
(undefined variables render as the empty string, as with Jinja2's default
`Undefined`), and a `TemplateSyntaxError` on an interpolation marker that
is never closed.  External library behaviours that cannot be embedded
(Python's `ast.parse`, flake8, pylint, `hashlib.md5`, and the operating
system's process semantics) are abstracted as an oracle structure `PyEnv`;
the orchestration code proved about here is translated statement by
statement from the Python source.
-/

deriving instance DecidableEq for Except

/-- Program text: a Python `str` as a list of characters. -/
abbrev Str := List Char

/-- Coercion from Lean string literals to `Str`. -/
def txt (s : String) : Str := s.data

/-- Characters stripped by Python's `str.strip()` with no argument. -/
def pyWs (c : Char) : Bool :=
  c = ' ' || c = '\t' || c = '\n' || c = '\r' || c = '\x0b' || c = '\x0c'

/-- Python `str.strip()`: drop leading and trailing whitespace. -/
def pyStrip (s : Str) : Str :=
  ((s.dropWhile pyWs).reverse.dropWhile pyWs).reverse

/-- Error raised by Jinja2 when a template is malformed
(e.g. an interpolation marker that is never closed). -/
inductive TemplateError where
  | malformed
deriving DecidableEq

/-- Rendering context: parameter name to already-stringified value. -/
abbrev RCtx := List (Str × Str)

/-- Look a variable up in the rendering context; Jinja2's default
`Undefined` renders a missing variable as the empty string. -/
def ctxLookup (ctx : RCtx) (name : Str) : Str :=
  match ctx.find? (fun kv => decide (kv.fst = name)) with
  | some kv => kv.snd
  | none => []

/-- Scanner mode of the template renderer: copying literal text, or
inside an interpolation marker accumulating the variable name (reversed). -/
inductive RMode where
  | copy
  | invar (acc : Str)

/-- One-pass template scanner.  Literal text is copied; `\x7b\x7b` opens an
interpolation marker, `\x7d\x7d` closes it and substitutes the (trimmed)
variable's value; an unclosed marker is a template-syntax error. -/
def renderGo (ctx : RCtx) : RMode → Str → Except TemplateError Str
  | .copy, [] => .ok []
  | .copy, '{' :: '{' :: rest => renderGo ctx (.invar []) rest
  | .copy, c :: rest => (renderGo ctx .copy rest).map (fun t => c :: t)
  | .invar _, [] => .error .malformed
  | .invar acc, '}' :: '}' :: rest =>
      (renderGo ctx .copy rest).map (fun t => ctxLookup ctx (pyStrip acc.reverse) ++ t)
  | .invar acc, c :: rest => renderGo ctx (.invar (c :: acc)) rest

/-- Render a template string against a context
(`jinja_env.from_string(t).render(context)`). -/
def renderT (ctx : RCtx) (t : Str) : Except TemplateError Str :=
  renderGo ctx .copy t

/-! ## Data model (src/plse/patterns.py) -/

/-- Python scalar or list value, as carried by parameter defaults and
`constraints["options"]` entries (patterns.py `Parameter.default : Any`). -/
inductive PyVal where
  | str (s : Str)
  | int (n : Int)
  | vlist (vs : List PyVal)

/-- Python `str()` of a value, as Jinja2 interpolates it into the output. -/
def pyStr : PyVal → Str
  | .str s => s
  | .int n => (toString n).data
  | .vlist _ => txt "[...]"

/-- Dataclass `Parameter` (patterns.py): `{type, description, default,
constraints}` with `constraints : Optional[Dict[str, Any]]`, modelled as an
optional association list. -/
structure Parameter where
  type : Str
  description : Str
  default : PyVal
  constraints : Option (List (Str × PyVal))

/-- Dataclass `Components` (patterns.py): `imports` is a plain string
defaulting to empty, the other four components are optional. -/
structure Components where
  imports : Str
  model_definition : Option Str
  data_setup : Option Str
  training_loop : Option Str
  evaluation : Option Str

/-- Dataclass `Validation` (patterns.py), restricted to the field the
generator reads (`unit_test_snippets`). -/
structure Validation where
  unit_test_snippets : List Str

/-- Dataclass `PLSEPattern` (patterns.py), restricted to the fields
`PLSEGenerator.generate` reads; `parameters` is a dict iterated in
insertion order, modelled as an association list. -/
structure PLSEPattern where
  pattern_id : Str
  instruction : Str
  components : Components
  parameters : List (Str × Parameter)
  validation : Validation

/-- Modelled from the spec: `ValidationResult` is imported by
validation.py from patterns.py, which does not define it.  Its shape is
fixed by the spec's `ValidationOutcome {accepted, finalCode, diagnostics}`
and by every constructor call `ValidationResult(valid, code, errors)` in
validation.py. -/
structure ValidationResult where
  valid : Bool
  code : Str
  errors : List Str
deriving DecidableEq

/-- Python exceptions that escape the modelled code paths. -/
inductive PyErr where
  | indexError
  | typeError
deriving DecidableEq

/-! ## Parameter instantiation (generator.py `_instantiate_parameters`) -/

/-- Python `dict.get(key, default)`: the stored value when the key is
present (even if that value is falsy), the default otherwise. -/
def dictGet (d : List (Str × PyVal)) (k : Str) (dflt : PyVal) : PyVal :=
  match d.find? (fun kv => decide (kv.fst = k)) with
  | some kv => kv.snd
  | none => dflt

/-- Option pool of a parameter:
`param.constraints.get("options", [param.default]) if param.constraints
else [param.default]` (generator.py line 34). -/
def paramOptions (p : Parameter) : PyVal :=
  match p.constraints with
  | none => .vlist [p.default]
  | some d => dictGet d (txt "options") (.vlist [p.default])

/-- Python `random.choice(seq)`: a uniformly drawn element of a non-empty
sequence (the draw is supplied as the index `r`); raises `IndexError` on
an empty sequence and `TypeError` on a non-sequence. -/
def randomChoice (r : Nat) (v : PyVal) : Except PyErr PyVal :=
  match v with
  | .vlist [] => .error .indexError
  | .vlist (x :: rest) => .ok ((x :: rest).get ⟨r % (rest.length + 1), Nat.mod_lt _ (Nat.succ_pos _)⟩)
  | _ => .error .typeError

/-- Loop body of `_instantiate_parameters` (generator.py lines 32-38):
a `"choice"` parameter draws from its option pool (consuming one random
draw `rand i`), every other kind copies the default verbatim.  An
exception (e.g. `IndexError` from `random.choice([])`) aborts the loop
and propagates. -/
def instantiateParams (rand : Nat → Nat) : List (Str × Parameter) → Nat →
    Except PyErr (List (Str × PyVal))
  | [], _ => .ok []
  | (name, p) :: rest, i =>
    if p.type = txt "choice" then
      match randomChoice (rand i) (paramOptions p) with
      | .error e => .error e
      | .ok v => (instantiateParams rand rest (i + 1)).map (fun ctx => (name, v) :: ctx)
    else
      (instantiateParams rand rest i).map (fun ctx => (name, p.default) :: ctx)

/-- Stringified rendering context derived from an instantiated parameter
context, as Jinja2 sees it. -/
def ctxStr (ctx : List (Str × PyVal)) : RCtx :=
  ctx.map (fun kv => (kv.fst, pyStr kv.snd))

/-! ## Code assembly (generator.py lines 58-67) -/

/-- Python truthiness filter for one component slot: `filter(None, ...)`
drops `None` and the empty string. -/
def truthyStr : Option Str → Option Str
  | none => none
  | some s => if s.isEmpty then none else some s

/-- Component templates that survive `filter(None, [...])`, in the order
the source lists them: imports, data_setup, training_loop, evaluation,
model_definition (generator.py lines 60-66). -/
def keptParts (c : Components) : List Str :=
  [some c.imports, c.data_setup, c.training_loop, c.evaluation, c.model_definition].filterMap truthyStr

/-- Python `"\n\n".join(parts)`. -/
def sepJoin : List Str → Str
  | [] => []
  | [t] => t
  | t :: t2 :: rest => t ++ '\n' :: '\n' :: sepJoin (t2 :: rest)

/-- Assembled full template string:
`full_template_str = "\n\n".join(code_parts)` (generator.py line 67). -/
def joinComponents (c : Components) : Str := sepJoin (keptParts c)

/-! ## Oracles for external library and operating-system behaviour -/

/-- Observable behaviour of the sandboxed child process spawned by
`SafeExecutionValidator.validate` for one source text: whether it is
still alive when `process.join(timeout)` returns, and what
`queue.get_nowait()` then finds (`none` = queue `Empty`; `some none` =
the success marker `queue.put(None)`; `some (some m)` = an exception
object with message `m`). -/
structure ChildBehavior where
  aliveAtDeadline : Bool
  queued : Option (Option Str)

/-- Oracle bundle abstracting the external libraries used by
validation.py and generator.py.  `astParseErr` is `ast.parse` (`none` =
parses, `some e` = the `SyntaxError` message); `flake8Stats` is
`report.get_statistics('')`, empty exactly when `report.total_errors ==
0`; `pylintPerfect` and `pylintLines` abstract the pylint report text;
`execBehavior` is the child-process behaviour per source text; `mdfive`
is `hashlib.md5(...).hexdigest()`. -/
structure PyEnv where
  astParseErr : Str → Option Str
  flake8Stats : Str → List Str
  pylintPerfect : Str → Bool
  pylintLines : Str → List Str
  execBehavior : Str → ChildBehavior
  mdfive : Str → Str

/-! ## Validators (validation.py) -/

/-- Stage 1, `SyntaxValidator.validate`: `ast.parse` the code; on failure
return `ValidationResult(False, code, [f"Syntax error: {e}"])`. -/
def syntaxValidate (env : PyEnv) (code : Str) : ValidationResult :=
  match env.astParseErr code with
  | none => ⟨true, code, []⟩
  | some e => ⟨false, code, [txt "Syntax error: " ++ e]⟩

/-- Stage 2, `Flake8Validator.validate`: valid when `report.total_errors
== 0`, otherwise the first five `"Flake8: ..."` statistics lines. -/
def flake8Validate (env : PyEnv) (code : Str) : ValidationResult :=
  if env.flake8Stats code = [] then ⟨true, code, []⟩
  else ⟨false, code, ((env.flake8Stats code).map (fun e => txt "Flake8: " ++ e)).take 5⟩

/-- Stage 2.5, `PylintValidator.validate`: valid when the report says
`rated at 10.00/10` or is blank, otherwise the first three report lines. -/
def pylintValidate (env : PyEnv) (code : Str) : ValidationResult :=
  if env.pylintPerfect code then ⟨true, code, []⟩
  else ⟨false, code, (env.pylintLines code).take 3⟩

/-- Calls `SafeExecutionValidator.validate` performs on the process
object and result queue, in order. -/
inductive SandboxAction where
  | start
  | joinWithTimeout
  | terminate
  | join
  | getNowait
deriving DecidableEq

/-- Timeout diagnostic text (validation.py line 282). -/
def timeoutMsg (t : Nat) : Str :=
  txt "Execution error: Timeout after " ++ (toString t).data ++ txt " seconds (possible infinite loop)."

/-- Runtime-fault diagnostic text (validation.py line 289). -/
def execErrMsg (m : Str) : Str := txt "Execution error: " ++ m

/-- Diagnostic for a child that exited without posting a result
(validation.py line 294). -/
def noResultMsg : Str := txt "Execution error: Process finished but no result was returned."

/-- Stage 3, `SafeExecutionValidator.validate` (validation.py lines
270-294), with the sequence of process/queue calls it performs: start
the child, `join(timeout)`; if the child is still alive, `terminate()`
then `join()` and return the timeout diagnostic; otherwise read the
one-shot queue and return success, the fault diagnostic, or the
no-result diagnostic when the queue is empty. -/
def safeExecutionValidate (env : PyEnv) (tmo : Nat) (code : Str) :
    ValidationResult × List SandboxAction :=
  let b := env.execBehavior code
  if b.aliveAtDeadline then
    (⟨false, code, [timeoutMsg tmo]⟩, [.start, .joinWithTimeout, .terminate, .join])
  else
    match b.queued with
    | some (some m) => (⟨false, code, [execErrMsg m]⟩, [.start, .joinWithTimeout, .getNowait])
    | some none => (⟨true, code, []⟩, [.start, .joinWithTimeout, .getNowait])
    | none => (⟨false, code, [noResultMsg]⟩, [.start, .joinWithTimeout, .getNowait])

/-! ## Pipeline orchestration (validation.py `ValidationPipeline`) -/

/-- Names of the pipeline's stages, for recording which stages ran. -/
inductive StageTag where
  | synStage
  | flake8Stage
  | pylintStage
  | execStage
deriving DecidableEq

/-- Validator chain built by `ValidationPipeline.__init__`:
syntax, flake8, optionally pylint, then safe execution with the
default 2-second timeout. -/
def pipelineValidators (env : PyEnv) (usePylint : Bool) :
    List (StageTag × (Str → ValidationResult)) :=
  [(.synStage, syntaxValidate env), (.flake8Stage, flake8Validate env)]
    ++ (if usePylint then [(.pylintStage, pylintValidate env)] else [])
    ++ [(.execStage, fun code => (safeExecutionValidate env 2 code).fst)]

/-- Fail-fast loop of `ValidationPipeline.validate` (validation.py lines
333-337): run each validator in sequence, returning the first failing
result immediately; also records which stages actually ran. -/
def runValidators : List (StageTag × (Str → ValidationResult)) → Str →
    ValidationResult × List StageTag
  | [], code => (⟨true, code, []⟩, [])
  | (n, v) :: rest, code =>
    let r := v code
    if r.valid then
      let rl := runValidators rest code
      (rl.fst, n :: rl.snd)
    else (r, [n])

/-- Result of `ValidationPipeline.validate(code)` as defined in
validation.py: a function of the code alone — the signature declares no
parameter for test snippets. -/
def pipelineValidate (env : PyEnv) (usePylint : Bool) (code : Str) : ValidationResult :=
  (runValidators (pipelineValidators env usePylint) code).fst

/-- Declared parameters of `ValidationPipeline.validate` besides `self`
(validation.py line 320: `def validate(self, code: str)`). -/
def validateParamNames : List Str := [txt "code"]

/-- Keywords of the call `self.validation_pipeline.validate(code=...,
tests=...)` in `PLSEGenerator.generate` (generator.py lines 96-99). -/
def generateCallKeywords : List Str := [txt "code", txt "tests"]

/-- Python keyword binding for a signature without `**kwargs`: the call
raises `TypeError` unless every supplied keyword names a declared
parameter. -/
def bindCallKeywords (params kws : List Str) : Bool :=
  kws.all (fun k => params.contains k)

/-- The invocation `self.validation_pipeline.validate(code=full_code,
tests=rendered_tests)` written at generator.py lines 96-99, executed
against the pipeline actually defined in validation.py: Python first
binds the call's keywords against the declared parameters of `validate`;
the keyword `tests` matches none of them, so the call raises `TypeError`
before the pipeline body can run.  (Were the binding to succeed, the
body would run on the code alone.) -/
def pipelineValidateCall (env : PyEnv) (usePylint : Bool) (code : Str) (_tests : List Str) :
    Except PyErr ValidationResult :=
  if bindCallKeywords validateParamNames generateCallKeywords then
    .ok (pipelineValidate env usePylint code)
  else .error .typeError

/-! ## Generator (generator.py `PLSEGenerator`) -/

/-- Session state of a `PLSEGenerator`: the `generated_hashes` set,
modelled as the list of admitted fingerprints. -/
structure GenState where
  generatedHashes : List Str
deriving DecidableEq

/-- Rendering of the validation snippets (generator.py lines 74-77): a
list comprehension, so the first template error aborts the whole list. -/
def renderTests (ctx : RCtx) : List Str → Except TemplateError (List Str)
  | [] => .ok []
  | t :: ts =>
    match renderT ctx t with
    | .error e => .error e
    | .ok r => (renderTests ctx ts).map (fun rs => r :: rs)

/-- `PLSEGenerator.generate` (generator.py lines 40-106), translated
statement by statement.  `rand` supplies the random draws consumed by
parameter instantiation; `validateFlag` is the generator's `self.validate`
constructor flag (its pipeline is built as `ValidationPipeline()`, so
without pylint).  The second component of the result is the session
state after the call: the `generated_hashes` set lives on the generator
object, so it keeps its mutations even when the method raises.
Parameter instantiation runs before the `try`/`except`, so its
exceptions propagate (`.error`); template errors inside the `try` are
caught and yield `None`; then the empty-code check, the md5 dedup check
with its set insertion, and finally the optional validation call,
modelled faithfully by `pipelineValidateCall`: the call raises
`TypeError` (keyword `tests` unmatched), which propagates because the
`try` block ended at line 84 — the accept/reject branches at lines
100-104 are dead code. -/
def generate (env : PyEnv) (rand : Nat → Nat) (validateFlag : Bool) (st : GenState)
    (pattern : PLSEPattern) (skipValidation : Bool) :
    Except PyErr (Option (Str × Str × List Str)) × GenState :=
  match instantiateParams rand pattern.parameters 0 with
  | .error e => (.error e, st)
  | .ok ctx =>
    let sctx := ctxStr ctx
    match renderT sctx pattern.instruction with
    | .error _ => (.ok none, st)
    | .ok instr =>
      match renderT sctx (joinComponents pattern.components) with
      | .error _ => (.ok none, st)
      | .ok rendered =>
        let fullCode := pyStrip rendered
        match renderTests sctx pattern.validation.unit_test_snippets with
        | .error _ => (.ok none, st)
        | .ok tests =>
          if fullCode.isEmpty then (.ok none, st)
          else
            let h := env.mdfive fullCode
            if st.generatedHashes.contains h then (.ok none, st)
            else
              let st' : GenState := ⟨h :: st.generatedHashes⟩
              if validateFlag && !skipValidation then
                match pipelineValidateCall env false fullCode tests with
                | .error e => (.error e, st')
                | .ok vr =>
                  if vr.valid then (.ok (some (fullCode, instr, tests)), st')
                  else (.ok none, st')
              else (.ok (some (fullCode, instr, tests)), st')

/-- The `(full_code, rendered_instruction, rendered_tests)` triple the
`try` block of `generate` computes for a pattern, `none` when parameter
instantiation raises or any template is malformed.  Used to state
properties of the dedup and validation steps. -/
def renderAttempt (rand : Nat → Nat) (pattern : PLSEPattern) :
    Option (Str × Str × List Str) :=
  match instantiateParams rand pattern.parameters 0 with
  | .error _ => none
  | .ok ctx =>
    let sctx := ctxStr ctx
    match renderT sctx pattern.instruction,
          renderT sctx (joinComponents pattern.components),
          renderTests sctx pattern.validation.unit_test_snippets with
    | .ok instr, .ok rendered, .ok tests => some (pyStrip rendered, instr, tests)
    | _, _, _ => none

/-- Assembled candidate source exactly as the source computes it:
render the blank-line-joined filtered component templates as one
template, then `strip()` the result (generator.py lines 58-71). -/
def assembledSource (ctx : RCtx) (c : Components) : Except TemplateError Str :=
  (renderT ctx (joinComponents c)).map pyStrip

/-- Modelled from the spec's words (§4.3), for comparison with
`assembledSource`: render each component, keep the non-empty rendered
components in the canonical order imports, data-setup, model/primary
definition, iterative/training logic, evaluation, join them with a
blank-line separator and trim the final result. -/
def specAssembledSource (ctx : RCtx) (c : Components) : Except TemplateError Str :=
  match renderT ctx c.imports,
        renderT ctx (c.data_setup.getD []),
        renderT ctx (c.model_definition.getD []),
        renderT ctx (c.training_loop.getD []),
        renderT ctx (c.evaluation.getD []) with
  | .ok ri, .ok rd, .ok rm, .ok rt, .ok re =>
      .ok (pyStrip (sepJoin (([ri, rd, rm, rt, re]).filter (fun s => !s.isEmpty))))
  | _, _, _, _, _ => .error .malformed

/-! ## Concrete instances used by witnesses and counterexamples -/

/-- Oracle in which every external check passes: the code parses, flake8
and pylint are clean, the child process exits in time posting the
success marker, and the fingerprint function is the identity. -/
def idEnv : PyEnv where
  astParseErr := fun _ => none
  flake8Stats := fun _ => []
  pylintPerfect := fun _ => true
  pylintLines := fun _ => []
  execBehavior := fun _ => ⟨false, some none⟩
  mdfive := fun s => s

/-- Oracle modelling `ast.parse` failing (the candidate is syntactically
invalid) while flake8 would also report an error on the same text. -/
def synErrEnv : PyEnv where
  astParseErr := fun _ => some (txt "invalid syntax (<unknown>, line 1)")
  flake8Stats := fun _ => [txt "1     E999 SyntaxError: invalid syntax"]
  pylintPerfect := fun _ => false
  pylintLines := fun _ => [txt "E0001: syntax-error"]
  execBehavior := fun _ => ⟨false, some none⟩
  mdfive := fun s => s

/-- Oracle in which the child process is still alive at the deadline
(e.g. the candidate contains `while True: pass`). -/
def hangEnv : PyEnv where
  astParseErr := fun _ => none
  flake8Stats := fun _ => []
  pylintPerfect := fun _ => true
  pylintLines := fun _ => []
  execBehavior := fun _ => ⟨true, none⟩
  mdfive := fun s => s

/-- Oracle in which the child process exits before the deadline without
posting anything on the result queue (unexpected crash). -/
def crashEnv : PyEnv where
  astParseErr := fun _ => none
  flake8Stats := fun _ => []
  pylintPerfect := fun _ => true
  pylintLines := fun _ => []
  execBehavior := fun _ => ⟨false, none⟩
  mdfive := fun s => s

/-- Pattern from the spec's end-to-end scenario A: an import, a primary
definition, one parameterised test, parameter `n` defaulting to `2`. -/
def squarePattern : PLSEPattern where
  pattern_id := txt "square-demo"
  instruction := txt "Write a function that squares a number."
  components :=
    { imports := txt "import math"
      model_definition := some (txt "def square(x): return x * x")
      data_setup := none
      training_loop := none
      evaluation := none }
  parameters := [(txt "n", { type := txt "int", description := txt "value", default := .str (txt "2"), constraints := none })]
  validation := { unit_test_snippets := [txt "assert square(\x7b\x7bn\x7d\x7d) == 4"] }

/-- Variant of `squarePattern` with a different instruction and a
different test snippet but the identical assembled code text. -/
def squarePatternB : PLSEPattern where
  pattern_id := txt "square-demo-b"
  instruction := txt "Implement squaring."
  components := squarePattern.components
  parameters := squarePattern.parameters
  validation := { unit_test_snippets := [txt "assert square(\x7b\x7bn\x7d\x7d) == 5"] }

/-- Variant of `squarePattern` whose only test snippet is malformed: the
interpolation marker is never closed. -/
def badTestPattern : PLSEPattern where
  pattern_id := txt "square-demo-bad"
  instruction := squarePattern.instruction
  components := squarePattern.components
  parameters := squarePattern.parameters
  validation := { unit_test_snippets := [txt "assert square(\x7b\x7bn) == 4"] }

/-- Pattern declaring a `"choice"` parameter whose constraints carry an
empty options list (the C2 failing input). -/
def emptyChoicePattern : PLSEPattern where
  pattern_id := txt "empty-choice"
  instruction := txt "Demo"
  components :=
    { imports := txt "import math"
      model_definition := none
      data_setup := none
      training_loop := none
      evaluation := none }
  parameters := [(txt "p", { type := txt "choice", description := txt "p", default := .str (txt "0"), constraints := some [(txt "options", .vlist [])] })]
  validation := { unit_test_snippets := [] }

/-- Components with only a primary definition and iterative logic, used
to exhibit the assembly order (the C3 counterexample input). -/
def orderComponents : Components where
  imports := []
  model_definition := some (txt "def square(x): return x * x")
  data_setup := none
  training_loop := some (txt "print(square(2))")
  evaluation := none

/-- Pattern all of whose kept components render to whitespace-only text:
literal spaces and an interpolation of an undefined variable. -/
def wsPattern : PLSEPattern where
  pattern_id := txt "ws-only"
  instruction := txt "Whitespace"
  components :=
    { imports := txt "   "
      model_definition := some (txt "\x7b\x7bblank\x7d\x7d")
      data_setup := none
      training_loop := none
      evaluation := none }
  parameters := []
  validation := { unit_test_snippets := [] }

/-! ## Theorems -/

/-- C1: the claim requires invoking the validation pipeline with the
candidate's code and its rendered test snippets, but
`ValidationPipeline.validate` (validation.py line 320) declares `code` as
its only parameter, so Python keyword binding of the generator's call
`validate(code=..., tests=...)` (generator.py lines 96-99) fails: the
call raises `TypeError` and no test snippet is ever executed. -/
theorem c1_tests_call_rejected :
    bindCallKeywords validateParamNames generateCallKeywords = false := by decide

/-- C2: for a `"choice"` parameter whose constraints contain an empty
options list, `dict.get("options", [default])` returns the stored empty
list (the fallback applies only when the key is absent), `random.choice`
raises `IndexError`, and because `_instantiate_parameters` runs before
`generate`'s `try` block the exception escapes to the caller for every
oracle, random source, session state and flag combination — `generate`
neither falls back to `[default]` nor returns `None`. -/
theorem c2_empty_options_raises (env : PyEnv) (rand : Nat → Nat) (vf skip : Bool)
    (st : GenState) :
    generate env rand vf st emptyChoicePattern skip = (.error .indexError, st) := rfl

/-- C5: the validation pipeline is fail-fast.  First, for any validator
chain, as soon as the leading stage reports failure the pipeline returns
that stage's result with only that stage having run.  Second, for the
pipeline `ValidationPipeline.__init__` builds (with or without pylint), a
candidate that fails `ast.parse` while also carrying flake8 violations
reports exactly the syntax-error diagnostic, and only the syntax stage
runs. -/
theorem c5_fail_fast :
    (∀ (tag : StageTag) (v : Str → ValidationResult)
        (rest : List (StageTag × (Str → ValidationResult))) (code : Str),
        (v code).valid = false → runValidators ((tag, v) :: rest) code = (v code, [tag]))
    ∧ (∀ (env : PyEnv) (usePylint : Bool) (code e : Str),
        env.astParseErr code = some e → env.flake8Stats code ≠ [] →
        runValidators (pipelineValidators env usePylint) code =
          (⟨false, code, [txt "Syntax error: " ++ e]⟩, [.synStage])) := by
  constructor
  · intro tag v rest code h
    simp [runValidators, h]
  · intro env usePylint code e hs _hf
    simp [runValidators, pipelineValidators, syntaxValidate, hs]

/-- Witness for C5: a concrete candidate that both fails to parse and
carries a flake8 violation reports only the syntax diagnostic. -/
theorem c5_fail_fast_witness :
    runValidators (pipelineValidators synErrEnv false) (txt "def f(: pass") =
      (⟨false, txt "def f(: pass",
        [txt "Syntax error: " ++ txt "invalid syntax (<unknown>, line 1)"]⟩, [.synStage]) :=
  c5_fail_fast.2 synErrEnv false (txt "def f(: pass")
    (txt "invalid syntax (<unknown>, line 1)") rfl (by decide)

/-- C7: on the timeout branch — the child process is still alive when
`process.join(timeout)` returns — `SafeExecutionValidator.validate`
calls `terminate()` and then `join()` (the child is forcibly terminated
and reaped) before returning, and the returned outcome is the timeout
diagnostic. -/
theorem c7_timeout_terminates (env : PyEnv) (tmo : Nat) (code : Str)
    (h : (env.execBehavior code).aliveAtDeadline = true) :
    safeExecutionValidate env tmo code =
      (⟨false, code, [timeoutMsg tmo]⟩, [.start, .joinWithTimeout, .terminate, .join]) := by
  simp [safeExecutionValidate, h]

/-- Witness for C7: an infinite-looping candidate under a 2-second
deadline yields the timeout diagnostic with terminate and join invoked. -/
theorem c7_timeout_terminates_witness :
    safeExecutionValidate hangEnv 2 (txt "while True: pass") =
      (⟨false, txt "while True: pass", [timeoutMsg 2]⟩,
        [.start, .joinWithTimeout, .terminate, .join]) :=
  c7_timeout_terminates hangEnv 2 (txt "while True: pass") rfl

/-- C8: when the child exits before the deadline without posting any
result on the one-shot queue, the executor returns the defined no-result
failure outcome instead of hanging or raising. -/
theorem c8_no_result_defined_outcome (env : PyEnv) (tmo : Nat) (code : Str)
    (h1 : (env.execBehavior code).aliveAtDeadline = false)
    (h2 : (env.execBehavior code).queued = none) :
    safeExecutionValidate env tmo code =
      (⟨false, code, [noResultMsg]⟩, [.start, .joinWithTimeout, .getNowait]) := by
  simp [safeExecutionValidate, h1, h2]

/-- Witness for C8: a concrete crashing child yields the no-result
diagnostic. -/
theorem c8_no_result_defined_outcome_witness :
    safeExecutionValidate crashEnv 2 (txt "import os; os._exit(1)") =
      (⟨false, txt "import os; os._exit(1)", [noResultMsg]⟩,
        [.start, .joinWithTimeout, .getNowait]) :=
  c8_no_result_defined_outcome crashEnv 2 (txt "import os; os._exit(1)") rfl rfl

/-! ## Renderer lemmas -/

theorem renderGo_copy_cons (ctx : RCtx) (c : Char) (hc : c ≠ '{') (rest : Str) :
    renderGo ctx .copy (c :: rest) = (renderGo ctx .copy rest).map (fun t => c :: t) := by
  cases rest <;> simp [renderGo, hc]

theorem renderGo_copy_brace_cons (ctx : RCtx) (c2 : Char) (hc : c2 ≠ '{') (rest : Str) :
    renderGo ctx .copy ('{' :: c2 :: rest) =
      (renderGo ctx .copy (c2 :: rest)).map (fun t => '{' :: t) := by
  simp [renderGo, hc]

theorem renderGo_copy_brace_nil (ctx : RCtx) : renderGo ctx .copy ['{'] = .ok ['{'] := rfl

theorem renderGo_invar_step (ctx : RCtx) (acc : Str) (c : Char) (hc : c ≠ '}') (rest : Str) :
    renderGo ctx (.invar acc) (c :: rest) = renderGo ctx (.invar (c :: acc)) rest := by
  cases rest <;> simp [renderGo, hc]

theorem renderGo_invar_brace_cons (ctx : RCtx) (acc : Str) (c2 : Char) (hc : c2 ≠ '}') (rest : Str) :
    renderGo ctx (.invar acc) ('}' :: c2 :: rest) =
      renderGo ctx (.invar ('}' :: acc)) (c2 :: rest) := by
  simp [renderGo, hc]

theorem renderGo_invar_single (ctx : RCtx) (acc : Str) (c : Char) :
    renderGo ctx (.invar acc) [c] = .error .malformed := by
  rcases eq_or_ne c '}' with rfl | hc
  · simp [renderGo]
  · rw [renderGo_invar_step ctx acc c hc []]
    rfl

theorem renderGo_append (ctx : RCtx) (b : Str) (hb : ∀ t : Str, b ≠ '{' :: t) :
    ∀ (n : Nat) (a : Str), a.length ≤ n → ∀ (m : RMode) (ra : Str),
      renderGo ctx m a = .ok ra →
      renderGo ctx m (a ++ b) = (renderGo ctx .copy b).map (fun rb => ra ++ rb) := by
  intro n
  induction n with
  | zero =>
    intro a ha m ra h
    have hnil : a = [] := List.length_eq_zero.mp (Nat.le_zero.mp ha)
    subst hnil
    cases m with
    | copy =>
      simp only [renderGo] at h
      cases h
      cases hrb : renderGo ctx .copy b <;> simp [hrb, Except.map]
    | invar acc => simp [renderGo] at h
  | succ n ih =>
    intro a ha m ra h
    cases a with
    | nil =>
      cases m with
      | copy =>
        simp only [renderGo] at h
        cases h
        cases hrb : renderGo ctx .copy b <;> simp [hrb, Except.map]
      | invar acc => simp [renderGo] at h
    | cons c a' =>
      have ha' : a'.length ≤ n := by simpa using ha
      cases m with
      | copy =>
        rcases eq_or_ne c '{' with rfl | hc
        · cases a' with
          | nil =>
            rw [renderGo_copy_brace_nil] at h
            cases h
            cases b with
            | nil =>
              simp [renderGo_copy_brace_nil, renderGo, Except.map]
            | cons cb bt =>
              have hcb : cb ≠ '{' := fun hh => hb bt (by rw [hh])
              rw [show ('{' :: ([] : Str)) ++ cb :: bt = '{' :: cb :: bt from rfl,
                renderGo_copy_brace_cons ctx cb hcb bt]
              cases hrb : renderGo ctx .copy (cb :: bt) <;> simp [hrb, Except.map]
          | cons c2 a'' =>
            have ha'' : a''.length ≤ n := by simp at ha; omega
            rcases eq_or_ne c2 '{' with rfl | hc2
            · have h' : renderGo ctx (.invar []) a'' = .ok ra := h
              have := ih a'' ha'' (.invar []) ra h'
              exact this
            · rw [renderGo_copy_brace_cons ctx c2 hc2 a''] at h
              cases hr : renderGo ctx .copy (c2 :: a'') with
              | error e => rw [hr] at h; simp [Except.map] at h
              | ok ra' =>
                rw [hr] at h
                simp only [Except.map] at h
                cases h
                have hrec := ih (c2 :: a'') (by simp at ha ⊢; omega) .copy ra' hr
                rw [show ('{' :: c2 :: a'') ++ b = '{' :: c2 :: (a'' ++ b) from rfl,
                  renderGo_copy_brace_cons ctx c2 hc2 (a'' ++ b),
                  show (c2 : Char) :: (a'' ++ b) = (c2 :: a'') ++ b from rfl, hrec]
                cases renderGo ctx .copy b <;> simp [Except.map]
        · rw [renderGo_copy_cons ctx c hc a'] at h
          cases hr : renderGo ctx .copy a' with
          | error e => rw [hr] at h; simp [Except.map] at h
          | ok ra' =>
            rw [hr] at h
            simp only [Except.map] at h
            cases h
            have hrec := ih a' ha' .copy ra' hr
            rw [show (c :: a') ++ b = c :: (a' ++ b) from rfl,
              renderGo_copy_cons ctx c hc (a' ++ b), hrec]
            cases renderGo ctx .copy b <;> simp [Except.map]
      | invar acc =>
        cases a' with
        | nil =>
          rw [renderGo_invar_single] at h
          cases h
        | cons c2 a'' =>
          have ha'' : a''.length ≤ n := by simp at ha; omega
          by_cases hcs : c = '}' ∧ c2 = '}'
          · obtain ⟨rfl, rfl⟩ := hcs
            have h' : (renderGo ctx .copy a'').map
                (fun t => ctxLookup ctx (pyStrip acc.reverse) ++ t) = .ok ra := h
            cases hr : renderGo ctx .copy a'' with
            | error e => rw [hr] at h'; simp [Except.map] at h'
            | ok ra'' =>
              rw [hr] at h'
              simp only [Except.map] at h'
              cases h'
              have hrec := ih a'' ha'' .copy ra'' hr
              have : renderGo ctx (.invar acc) (('}' :: '}' :: a'') ++ b) =
                  (renderGo ctx .copy (a'' ++ b)).map
                    (fun t => ctxLookup ctx (pyStrip acc.reverse) ++ t) := rfl
              rw [this, hrec]
              cases renderGo ctx .copy b <;> simp [Except.map]
          · rcases eq_or_ne c '}' with rfl | hc
            · have hc2 : c2 ≠ '}' := fun hh => hcs ⟨rfl, hh⟩
              rw [renderGo_invar_brace_cons ctx acc c2 hc2 a''] at h
              have hrec := ih (c2 :: a'') (by simp at ha ⊢; omega) (.invar ('}' :: acc)) ra h
              rw [show ('}' :: c2 :: a'') ++ b = '}' :: c2 :: (a'' ++ b) from rfl,
                renderGo_invar_brace_cons ctx acc c2 hc2 (a'' ++ b)]
              exact hrec
            · rw [renderGo_invar_step ctx acc c hc (c2 :: a'')] at h
              have hrec := ih (c2 :: a'') (by simp at ha ⊢; omega) (.invar (c :: acc)) ra h
              rw [show (c :: c2 :: a'') ++ b = c :: ((c2 :: a'') ++ b) from rfl,
                renderGo_invar_step ctx acc c hc ((c2 :: a'') ++ b)]
              exact hrec

theorem renderT_append (ctx : RCtx) (a b : Str) (ra : Str) (hb : ∀ t : Str, b ≠ '{' :: t)
    (h : renderT ctx a = .ok ra) :
    renderT ctx (a ++ b) = (renderT ctx b).map (fun rb => ra ++ rb) :=
  renderGo_append ctx b hb a.length a le_rfl .copy ra h

/-- Rendering a blank-line join of templates that each render to
whitespace-only text yields whitespace-only text. -/
theorem renderT_sepJoin_ws (ctx : RCtx) :
    ∀ ts : List Str, (∀ t ∈ ts, ∃ w, renderT ctx t = .ok w ∧ w.all pyWs = true) →
    ∃ W, renderT ctx (sepJoin ts) = .ok W ∧ W.all pyWs = true := by
  intro ts
  induction ts with
  | nil => exact fun _ => ⟨[], rfl, rfl⟩
  | cons t ts ih =>
    intro h
    obtain ⟨w, hw, hws⟩ := h t (by simp)
    cases ts with
    | nil => exact ⟨w, hw, hws⟩
    | cons t2 rest =>
      obtain ⟨W', hW', hWs'⟩ := ih (fun u hu => h u (by simp [hu]))
      have hb : ∀ u : Str, ('\n' :: '\n' :: sepJoin (t2 :: rest)) ≠ '{' :: u := by
        intro u hu
        simp at hu
      have happ := renderT_append ctx t ('\n' :: '\n' :: sepJoin (t2 :: rest)) w hb hw
      have h1 : renderT ctx ('\n' :: '\n' :: sepJoin (t2 :: rest)) = .ok ('\n' :: '\n' :: W') := by
        unfold renderT
        rw [renderGo_copy_cons ctx '\n' (by decide) ('\n' :: sepJoin (t2 :: rest)),
          renderGo_copy_cons ctx '\n' (by decide) (sepJoin (t2 :: rest))]
        rw [show renderGo ctx .copy (sepJoin (t2 :: rest)) = .ok W' from hW']
        rfl
      refine ⟨w ++ '\n' :: '\n' :: W', ?_, ?_⟩
      · rw [show sepJoin (t :: t2 :: rest) = t ++ '\n' :: '\n' :: sepJoin (t2 :: rest) from rfl,
          happ, h1]
        rfl
      · simp [List.all_append, List.all_eq_true] at hws hWs' ⊢
        exact ⟨hws, by decide, hWs'⟩

/-- Python `strip()` of whitespace-only text is empty. -/
theorem pyStrip_eq_nil (s : Str) (h : s.all pyWs = true) : pyStrip s = [] := by
  have h1 : s.dropWhile pyWs = [] := by
    rw [List.dropWhile_eq_nil_iff]
    simpa [List.all_eq_true] using h
  simp [pyStrip, h1]

/-! ## Generator lemmas -/

/-- Behaviour of `generate` after a successful `try` block: the
empty-code check, the dedup check with its set insertion, and — when
validation is enabled and not skipped — the validation call, which
raises `TypeError` (see `pipelineValidateCall`) with the fingerprint
already recorded; exactly as in generator.py lines 86-106. -/
theorem generate_of_attempt (env : PyEnv) (rand : Nat → Nat) (vf : Bool) (st : GenState)
    (p : PLSEPattern) (skip : Bool) (c instr : Str) (tests : List Str)
    (h : renderAttempt rand p = some (c, instr, tests)) :
    generate env rand vf st p skip =
      (if c.isEmpty then (.ok none, st)
       else if st.generatedHashes.contains (env.mdfive c) then (.ok none, st)
       else if vf && !skip then (.error .typeError, ⟨env.mdfive c :: st.generatedHashes⟩)
       else (.ok (some (c, instr, tests)), ⟨env.mdfive c :: st.generatedHashes⟩)) := by
  unfold renderAttempt at h
  cases hi : instantiateParams rand p.parameters 0 with
  | error e => rw [hi] at h; simp at h
  | ok ctx =>
    rw [hi] at h
    simp only at h
    cases h1 : renderT (ctxStr ctx) p.instruction with
    | error e => rw [h1] at h; simp at h
    | ok i0 =>
      rw [h1] at h
      cases h2 : renderT (ctxStr ctx) (joinComponents p.components) with
      | error e => rw [h2] at h; simp at h
      | ok r0 =>
        rw [h2] at h
        cases h3 : renderTests (ctxStr ctx) p.validation.unit_test_snippets with
        | error e => rw [h3] at h; simp at h
        | ok ts0 =>
          rw [h3] at h
          simp only [Option.some.injEq, Prod.mk.injEq] at h
          obtain ⟨hc, hinstr, hts⟩ := h
          subst hc
          subst hinstr
          subst hts
          unfold generate
          rw [hi]
          simp only [h1, h2, h3]
          rfl

/-! ## Remaining claim theorems -/

/-- C3 counterexample: with only a model definition and iterative logic
present, the source assembles iterative logic BEFORE the model
definition (imports, data-setup, training, evaluation, model last),
while the claim's canonical order puts the model definition third; the
two assembled texts differ on this concrete input. -/
theorem c3_order_counterexample :
    assembledSource [] orderComponents =
      .ok (txt "print(square(2))\n\ndef square(x): return x * x")
    ∧ specAssembledSource [] orderComponents =
      .ok (txt "def square(x): return x * x\n\nprint(square(2))")
    ∧ assembledSource [] orderComponents ≠ specAssembledSource [] orderComponents := by
  refine ⟨by decide, by decide, by decide⟩

/-- C3 amended: whenever `generate` returns a candidate, its code equals
the rendered blank-line join of the truthiness-filtered component
templates taken in the source's order — imports, data-setup, training
loop, evaluation, and the model definition LAST — with the final result
stripped of leading and trailing whitespace (the filter applies to the
component templates before rendering, and the joined template is
rendered as one unit). -/
theorem c3_assembled_join (env : PyEnv) (rand : Nat → Nat) (vf : Bool) (st : GenState)
    (p : PLSEPattern) (skip : Bool) (c instr : Str) (tests : List Str) (st' : GenState)
    (h : generate env rand vf st p skip = (.ok (some (c, instr, tests)), st')) :
    ∃ ctx rendered, instantiateParams rand p.parameters 0 = .ok ctx
      ∧ renderT (ctxStr ctx) (joinComponents p.components) = .ok rendered
      ∧ c = pyStrip rendered := by
  unfold generate at h
  cases hi : instantiateParams rand p.parameters 0 with
  | error e => rw [hi] at h; simp at h
  | ok ctx =>
    rw [hi] at h
    simp only at h
    cases h1 : renderT (ctxStr ctx) p.instruction with
    | error e => rw [h1] at h; simp at h
    | ok i0 =>
      rw [h1] at h
      cases h2 : renderT (ctxStr ctx) (joinComponents p.components) with
      | error e => rw [h2] at h; simp at h
      | ok r0 =>
        rw [h2] at h
        cases h3 : renderTests (ctxStr ctx) p.validation.unit_test_snippets with
        | error e => rw [h3] at h; simp at h
        | ok ts0 =>
          rw [h3] at h
          refine ⟨ctx, r0, rfl, h2, ?_⟩
          have hcall : ∀ (cc : Str) (tt : List Str),
              pipelineValidateCall env false cc tt = .error .typeError := fun _ _ => rfl
          simp only [hcall] at h
          split at h
          · simp at h
          · split at h
            · simp at h
            · split at h
              · simp at h
              · simp at h
                exact h.1.1.symm

/-- Witness for C3 amended: the scenario-A pattern generates
successfully and its code is the stripped render of the joined kept
components. -/
theorem c3_assembled_join_witness :
    ∃ ctx rendered, instantiateParams (fun _ => 0) squarePattern.parameters 0 = .ok ctx
      ∧ renderT (ctxStr ctx) (joinComponents squarePattern.components) = .ok rendered
      ∧ txt "import math\n\ndef square(x): return x * x" = pyStrip rendered :=
  c3_assembled_join idEnv (fun _ => 0) true ⟨[]⟩ squarePattern true
    (txt "import math\n\ndef square(x): return x * x")
    (txt "Write a function that squares a number.")
    [txt "assert square(2) == 4"]
    ⟨[txt "import math\n\ndef square(x): return x * x"]⟩ rfl

/-- C4 counterexample: with validation enabled (the generator's default
configuration), the FIRST `generate` call producing this code text does
not return a result: it records the fingerprint and then raises
`TypeError` at the validation invocation (the arity mismatch of C1) —
contradicting the claim that the first call producing a given code text
returns a result. -/
theorem c4_first_call_counterexample :
    generate idEnv (fun _ => 0) true ⟨[]⟩ squarePattern false =
      (.error .typeError, ⟨[txt "import math\n\ndef square(x): return x * x"]⟩) := rfl

/-- C4 amended: within one session, when the fingerprint of the
candidate's code text is unseen and validation is disabled or skipped,
`generate` returns the candidate and records the fingerprint (admit
succeeds); with validation enabled the call instead records the
fingerprint and raises `TypeError` (see C1 and
`c4_first_call_counterexample`); and when the fingerprint is already
present, `generate` returns `None` with the state unchanged even for a
pattern that produces the identical code text with a DIFFERENT
instruction and different test snippets — the fingerprint is computed
over the assembled code text only. -/
theorem c4_dedup_records (env : PyEnv) (rand rand' : Nat → Nat) (vf vf' : Bool) (st : GenState)
    (p p' : PLSEPattern) (skip skip' : Bool) (c instr instr' : Str) (tests tests' : List Str)
    (h : renderAttempt rand p = some (c, instr, tests))
    (h' : renderAttempt rand' p' = some (c, instr', tests'))
    (hne : c.isEmpty = false) :
    (env.mdfive c ∉ st.generatedHashes → (vf && !skip) = false →
      generate env rand vf st p skip =
        (.ok (some (c, instr, tests)), ⟨env.mdfive c :: st.generatedHashes⟩))
    ∧ (env.mdfive c ∉ st.generatedHashes → (vf && !skip) = true →
      generate env rand vf st p skip =
        (.error .typeError, ⟨env.mdfive c :: st.generatedHashes⟩))
    ∧ (env.mdfive c ∈ st.generatedHashes →
      generate env rand' vf' st p' skip' = (.ok none, st)) := by
  refine ⟨?_, ?_, ?_⟩
  · intro hfresh hva
    rw [generate_of_attempt env rand vf st p skip c instr tests h]
    simp [hne, hfresh, hva]
  · intro hfresh hvb
    rw [generate_of_attempt env rand vf st p skip c instr tests h]
    simp [hne, hfresh, hvb]
  · intro hmem
    rw [generate_of_attempt env rand' vf' st p' skip' c instr' tests' h']
    simp [hne, hmem]

/-- Witness for C4 amended: a fresh session admits the scenario-A
candidate (validation skipped), recording its fingerprint. -/
theorem c4_dedup_records_witness :
    generate idEnv (fun _ => 0) true ⟨[]⟩ squarePattern true =
      (.ok (some (txt "import math\n\ndef square(x): return x * x",
                  txt "Write a function that squares a number.",
                  [txt "assert square(2) == 4"])),
       ⟨[txt "import math\n\ndef square(x): return x * x"]⟩) :=
  (c4_dedup_records idEnv (fun _ => 0) (fun _ => 0) true true ⟨[]⟩
      squarePattern squarePatternB true true
      (txt "import math\n\ndef square(x): return x * x")
      (txt "Write a function that squares a number.")
      (txt "Implement squaring.")
      [txt "assert square(2) == 4"] [txt "assert square(2) == 5"]
      rfl rfl rfl).1 (by decide) rfl

/-- C6: when parameter instantiation succeeds but any of the pattern's
templates — the instruction, the joined code components, or any test
snippet — is malformed, the whole generation attempt is aborted:
`generate` returns `None` with the session state unchanged (nothing is
fingerprinted or admitted), and no exception escapes to the caller. -/
theorem c6_template_error_aborts (env : PyEnv) (rand : Nat → Nat) (vf : Bool) (st : GenState)
    (p : PLSEPattern) (skip : Bool) (ctx : List (Str × PyVal))
    (hi : instantiateParams rand p.parameters 0 = .ok ctx)
    (hbad : renderT (ctxStr ctx) p.instruction = .error .malformed
      ∨ renderT (ctxStr ctx) (joinComponents p.components) = .error .malformed
      ∨ renderTests (ctxStr ctx) p.validation.unit_test_snippets = .error .malformed) :
    generate env rand vf st p skip = (.ok none, st) := by
  unfold generate
  rw [hi]
  rcases hbad with hb | hb | hb
  · simp only [hb]
  · cases h1 : renderT (ctxStr ctx) p.instruction with
    | error e => simp only [h1]
    | ok i0 => simp only [h1, hb]
  · cases h1 : renderT (ctxStr ctx) p.instruction with
    | error e => simp only [h1]
    | ok i0 =>
      cases h2 : renderT (ctxStr ctx) (joinComponents p.components) with
      | error e => simp only [h1, h2]
      | ok r0 => simp only [h1, h2, hb]

/-- Witness for C6: a pattern whose only test snippet leaves its
interpolation marker unclosed makes `generate` return `None` with the
dedup set untouched. -/
theorem c6_template_error_aborts_witness :
    generate idEnv (fun _ => 0) true ⟨[]⟩ badTestPattern false = (.ok none, ⟨[]⟩) :=
  c6_template_error_aborts idEnv (fun _ => 0) true ⟨[]⟩ badTestPattern false
    [(txt "n", .str (txt "2"))] rfl (Or.inr (Or.inr rfl))

/-- C9: for a pattern whose kept code components all render to empty or
whitespace-only text, `generate` returns `None` for every oracle and
session state, and the state is unchanged — the empty assembled source
is never fingerprinted, never admitted into the deduplication set,
never validated, and never returned. -/
theorem c9_whitespace_only_rejected (env : PyEnv) (rand : Nat → Nat) (vf : Bool)
    (st : GenState) (p : PLSEPattern) (skip : Bool) (ctx : List (Str × PyVal))
    (hi : instantiateParams rand p.parameters 0 = .ok ctx)
    (hws : ∀ t ∈ keptParts p.components,
      ∃ w, renderT (ctxStr ctx) t = .ok w ∧ w.all pyWs = true) :
    generate env rand vf st p skip = (.ok none, st) := by
  obtain ⟨W, hW, hWs⟩ := renderT_sepJoin_ws (ctxStr ctx) (keptParts p.components) hws
  have hjoin : renderT (ctxStr ctx) (joinComponents p.components) = .ok W := hW
  have hempty : (pyStrip W).isEmpty = true := by
    rw [pyStrip_eq_nil W hWs]
    rfl
  unfold generate
  rw [hi]
  cases h1 : renderT (ctxStr ctx) p.instruction with
  | error e => simp only [h1]
  | ok i0 =>
    simp only [h1, hjoin]
    cases h3 : renderTests (ctxStr ctx) p.validation.unit_test_snippets with
    | error e => simp only [h3]
    | ok ts0 =>
      simp only [h3, hempty, if_true]

/-- Witness for C9: a pattern with a spaces-only import component and a
component interpolating an undefined variable (rendering empty)
generates nothing and leaves the session state unchanged. -/
theorem c9_whitespace_only_rejected_witness :
    generate idEnv (fun _ => 0) true ⟨[]⟩ wsPattern false = (.ok none, ⟨[]⟩) :=
  c9_whitespace_only_rejected idEnv (fun _ => 0) true ⟨[]⟩ wsPattern false [] rfl
    (by
      intro t ht
      rw [show keptParts wsPattern.components = [txt "   ", txt "\x7b\x7bblank\x7d\x7d"] from rfl] at ht
      rcases List.mem_cons.mp ht with rfl | ht2
      · exact ⟨txt "   ", rfl, rfl⟩
      · rcases List.mem_cons.mp ht2 with rfl | ht3
        · exact ⟨[], rfl, rfl⟩
        · simp at ht3)

/-- C10: `generate` adds the candidate's fingerprint to the session set
BEFORE the validation call runs, so recording is indeed not atomic with
acceptance — but the validation invocation itself raises `TypeError`
(the arity mismatch of C1), so validation can never "reject" a
candidate: the reject path at generator.py lines 100-104 is dead code.
What the code actually does at the claim's scenario: the fingerprint is
recorded, the `TypeError` escapes with the fingerprint remaining in the
session set, and every subsequent call in the same session producing the
identical code text (even from a pattern with a different instruction
and different tests, and whatever its validation flags) returns `None`
as a duplicate. -/
theorem c10_hash_recorded_before_validation (env : PyEnv) (rand rand' : Nat → Nat)
    (vf' : Bool) (st : GenState) (p p' : PLSEPattern) (skip' : Bool)
    (c instr instr' : Str) (tests tests' : List Str)
    (h : renderAttempt rand p = some (c, instr, tests))
    (h' : renderAttempt rand' p' = some (c, instr', tests'))
    (hne : c.isEmpty = false)
    (hfresh : env.mdfive c ∉ st.generatedHashes) :
    generate env rand true st p false =
      (.error .typeError, ⟨env.mdfive c :: st.generatedHashes⟩)
    ∧ generate env rand' vf' ⟨env.mdfive c :: st.generatedHashes⟩ p' skip' =
      (.ok none, ⟨env.mdfive c :: st.generatedHashes⟩) := by
  constructor
  · rw [generate_of_attempt env rand true st p false c instr tests h]
    simp [hne, hfresh]
  · rw [generate_of_attempt env rand' vf' ⟨env.mdfive c :: st.generatedHashes⟩ p' skip'
      c instr' tests' h']
    simp [hne]

/-- Witness for C10: the scenario-A candidate's fingerprint is recorded
before the validation call raises, and the variant pattern producing the
identical code text is then rejected as a duplicate. -/
theorem c10_hash_recorded_before_validation_witness :
    generate idEnv (fun _ => 0) true ⟨[]⟩ squarePattern false =
      (.error .typeError, ⟨[txt "import math\n\ndef square(x): return x * x"]⟩)
    ∧ generate idEnv (fun _ => 0) true
        ⟨[txt "import math\n\ndef square(x): return x * x"]⟩ squarePatternB false =
      (.ok none, ⟨[txt "import math\n\ndef square(x): return x * x"]⟩) :=
  c10_hash_recorded_before_validation idEnv (fun _ => 0) (fun _ => 0) true
    ⟨[]⟩ squarePattern squarePatternB false
    (txt "import math\n\ndef square(x): return x * x")
    (txt "Write a function that squares a number.")
    (txt "Implement squaring.")
    [txt "assert square(2) == 4"] [txt "assert square(2) == 5"]
    rfl rfl rfl (by decide)



